import Mathlib

/-!
Shallow embedding of the deployment orchestrator of the Cloud Playground
repository: the CloudService module (terraform driver) and the deployment
route handlers (`src/server/routes/deployments.js`), together with proofs
of the lifecycle properties stated in the specification.
-/

namespace CloudPlayground

/-- Deployment status enum, from the mongoose schema in
`src/server/routes/deployments.js` lines 28-32. -/
inductive Status
  | pending
  | deploying
  | deployed
  | failed
  | rolling_back
  | rolled_back
  deriving DecidableEq, Repr

/-- Log entry level enum, from the schema in
`src/server/routes/deployments.js` line 36. -/
inductive LogType
  | info
  | success
  | error
  | warning
  deriving DecidableEq, Repr

/-- One entry of the append-only deployment log
(`src/server/routes/deployments.js` lines 34-38); the timestamp field is
not modelled since no claim depends on it. -/
structure LogEntry where
  message : String
  type : LogType
  deriving DecidableEq, Repr

/-- The `outputs` mapping produced by `terraform output -json`: string keys
to (serialised) values. -/
def Outputs := List (String × String)
  deriving DecidableEq, Repr

/-- The options object passed to Node `child_process.exec`. Only the fields
the source ever uses are modelled: `cwd` always, and `timeout`, which the
source never sets (Node default: no timeout). -/
structure ExecOptions where
  cwd : String
  timeout : Option Nat := none
  deriving DecidableEq, Repr

/-- Node `exec` timeout semantics: with `timeout` unset the subprocess runs
to completion whatever its duration; with `timeout := some t`, a run
lasting longer than `t` milliseconds is killed and reports an error.
`run` is the outcome the subprocess itself would produce (ok stdout or a
nonzero-exit error message). -/
def execOutcome (opts : ExecOptions) (durationMs : Nat)
    (run : Except String String) : Except String String :=
  match opts.timeout with
  | none => run
  | some t => if t < durationMs then Except.error "killed: exec timeout" else run

/-- Abstraction of the message of the SyntaxError thrown by `JSON.parse`
on unparsable input. -/
def jsonParseErrorMessage (raw : String) : String :=
  "Unexpected token: " ++ raw ++ " is not valid JSON"

/-- The value returned by a successful `CloudService.deployInfrastructure`
(`src/unnamed/part_001` lines 106-111). -/
structure DeployResult where
  outputs : Outputs
  planOutput : String
  applyOutput : String
  deriving DecidableEq, Repr

/-- External world of one `deployInfrastructure` call: for each `exec`ed
terraform command, the outcome the subprocess would produce and its
duration in milliseconds, plus the behaviour of `JSON.parse` on the
output query stdout (`none` models a thrown SyntaxError). -/
structure DeployEnv where
  initRun : Except String String
  initMs : Nat
  planRun : Except String String
  planMs : Nat
  applyRun : Except String String
  applyMs : Nat
  outputRun : Except String String
  outputMs : Nat
  parse : String → Option Outputs

/-- Options passed to every `exec` call in
`CloudService.deployInfrastructure` and `rollbackDeployment`
(`src/unnamed/part_001` lines 92-101 and 127): only `cwd`; no timeout is
configured. -/
def deployExecOptions (projectPath : String) : ExecOptions :=
  { cwd := projectPath }

/-- `CloudService.deployInfrastructure` (`src/unnamed/part_001` lines
81-116): runs `terraform init`, `plan`, `apply`, `output -json` in
sequence and JSON-parses the output stdout. Any failure in the `try`
block, including a `JSON.parse` failure, is caught and rethrown as
`Deployment failed: <message>`. -/
def deployInfrastructure (projectPath : String) (env : DeployEnv) :
    Except String DeployResult :=
  match execOutcome (deployExecOptions projectPath) env.initMs env.initRun with
  | Except.error e => Except.error ("Deployment failed: " ++ e)
  | Except.ok _ =>
    match execOutcome (deployExecOptions projectPath) env.planMs env.planRun with
    | Except.error e => Except.error ("Deployment failed: " ++ e)
    | Except.ok planOut =>
      match execOutcome (deployExecOptions projectPath) env.applyMs env.applyRun with
      | Except.error e => Except.error ("Deployment failed: " ++ e)
      | Except.ok applyOut =>
        match execOutcome (deployExecOptions projectPath) env.outputMs env.outputRun with
        | Except.error e => Except.error ("Deployment failed: " ++ e)
        | Except.ok out =>
          match env.parse out with
          | none => Except.error ("Deployment failed: " ++ jsonParseErrorMessage out)
          | some outs => Except.ok ⟨outs, planOut, applyOut⟩

/-- External world of one `CloudService.rollbackDeployment` call. -/
structure RollbackEnv where
  pathExists : Bool
  destroyRun : Except String String
  destroyMs : Nat

/-- `CloudService.rollbackDeployment` (`src/unnamed/part_001` lines
118-140): throws if the project path is missing, runs
`terraform destroy -auto-approve`, and rethrows any failure as
`Rollback failed: <message>`; on success returns the fixed message. -/
def rollbackDeployment (projectPath : String) (env : RollbackEnv) :
    Except String String :=
  if env.pathExists = false then
    Except.error ("Rollback failed: " ++ "Project path does not exist")
  else
    match execOutcome (deployExecOptions projectPath) env.destroyMs env.destroyRun with
    | Except.error e => Except.error ("Rollback failed: " ++ e)
    | Except.ok _ => Except.ok "Infrastructure rolled back successfully"

/-- The object returned by `CloudService.validateInfrastructure`
(`src/unnamed/part_001` lines 210-219). -/
structure ValidationResult where
  valid : Bool
  message : Option String
  error : Option String
  deriving DecidableEq, Repr

/-- The ephemeral validation workspace path: `path.join(terraformPath,
'temp-validation')` from `src/unnamed/part_001` line 196. -/
def tempValidationPath : String := "terraform/temp-validation"

/-- Options of the `exec` calls inside `validateInfrastructure`
(`src/unnamed/part_001` lines 204-205): only `cwd`. -/
def validateExecOptions : ExecOptions :=
  { cwd := tempValidationPath }

/-- External world of one `validateInfrastructure` call: `setupRun` stands
for the mkdir / write main.tf / write providers.tf block, then the
`terraform init` and `terraform validate` subprocesses. -/
structure ValidateEnv where
  setupRun : Except String Unit
  initRun : Except String String
  initMs : Nat
  validateRun : Except String String
  validateMs : Nat

/-- `CloudService.validateInfrastructure` (`src/unnamed/part_001` lines
194-221). The second component records whether `cleanupDirectory tempPath`
was invoked: in the source the cleanup call sits inside the `try` block
after the validate step, so it runs only when every prior step succeeded;
the `catch` branch returns without any cleanup. -/
def validateInfrastructure (env : ValidateEnv) : ValidationResult × Bool :=
  match env.setupRun with
  | Except.error e => (⟨false, none, some e⟩, false)
  | Except.ok _ =>
    match execOutcome validateExecOptions env.initMs env.initRun with
    | Except.error e => (⟨false, none, some e⟩, false)
    | Except.ok _ =>
      match execOutcome validateExecOptions env.validateMs env.validateRun with
      | Except.error e => (⟨false, none, some e⟩, false)
      | Except.ok _ => (⟨true, some "Terraform configuration is valid", none⟩, true)

/-- One line of the mock cost breakdown
(`src/unnamed/part_001` lines 180-185). -/
structure CostItem where
  service : String
  cost : String
  deriving DecidableEq, Repr

/-- The cost estimate object returned by `getCostEstimate`. -/
structure CostBreakdown where
  monthlyEstimate : String
  breakdown : List CostItem
  currency : String
  deriving DecidableEq, Repr

/-- Return value of `CloudService.getCostEstimate`: either the estimate
object or an error object (the function returns error objects, it never
throws). -/
inductive CostResult
  | estimate (c : CostBreakdown)
  | errorResult (msg : String)
  deriving DecidableEq, Repr

/-- The hard-coded mock estimate of `src/unnamed/part_001` lines 178-187. -/
def mockCostBreakdown : CostBreakdown :=
  ⟨"$150.00",
   [⟨"EC2 Instances", "$80.00"⟩,
    ⟨"RDS Database", "$40.00"⟩,
    ⟨"S3 Storage", "$20.00"⟩,
    ⟨"Load Balancer", "$10.00"⟩],
   "USD"⟩

/-- External world of one `getCostEstimate` call: whether the project
workspace path exists, and whatever resources were actually deployed
there (which the source never inspects). -/
structure CostEnv where
  pathExists : Bool
  deployedResources : List String
  deriving DecidableEq, Repr

/-- `CloudService.getCostEstimate` (`src/unnamed/part_001` lines 168-192):
returns the error object `Project not found` when the path is missing,
otherwise the fixed mock breakdown, independent of the deployed
resources. -/
def getCostEstimate (env : CostEnv) : CostResult :=
  if env.pathExists then CostResult.estimate mockCostBreakdown
  else CostResult.errorResult "Project not found"

/-- Program counter of the single background job a deployment record can
have scheduled: `processDeployment` is scheduled exactly once via
`setImmediate` when the record is created (`deployments.js` line 83), and
`processRollback` exactly once when a rollback is accepted (line 268).
Each job performs its mutations in two save steps (the initial log/status
save and the final outcome save), so the token also records which step is
next. -/
inductive JobPhase
  | deployQueued
  | deployRunning
  | rollbackQueued
  | rollbackRunning
  deriving DecidableEq, Repr

/-- The persisted deployment record (mongoose schema, `deployments.js`
lines 22-44), restricted to the lifecycle fields the claims are about,
plus the scheduled-job token. `outputs = none` models the schema default
(the field was never assigned by a successful apply). -/
structure Deployment where
  status : Status
  outputs : Option Outputs
  logs : List LogEntry
  costEstimate : Option CostResult
  deploymentTime : Option Nat
  deployedAt : Option Nat
  rolledBackAt : Option Nat
  job : Option JobPhase
  deriving DecidableEq, Repr

/-- A freshly created deployment record (`deployments.js` lines 69-89):
status `pending`, schema defaults everywhere else, with the
`processDeployment` job scheduled. -/
def newDeployment : Deployment :=
  ⟨Status.pending, none, [], none, none, none, none, some JobPhase.deployQueued⟩

/-- `Math.round(ms / 1000)` from `deployments.js` line 385, on natural
milliseconds. -/
def msToRoundedSeconds (ms : Nat) : Nat := (ms + 500) / 1000

/-- The atomic persisted mutations of one deployment record, one per save
point of the source:
* `deployStart` — first half of `processDeployment` (lines 366-372);
* `deployFinish res startMs finishMs cost` — second half (lines 374-409),
  where `res` is the outcome of `deployInfrastructure` and `cost` the
  value of `getCostEstimate` attached on success;
* `rollbackSubmit` — the rollback route handler (lines 249-274), which
  finds the record only if its status is `deployed`;
* `rollbackStart` — first half of `processRollback` (lines 417-422);
* `rollbackFinish res finishMs` — second half (lines 424-446). -/
inductive Event
  | deployStart
  | deployFinish (res : Except String DeployResult) (startMs finishMs : Nat)
      (cost : CostResult)
  | rollbackSubmit
  | rollbackStart
  | rollbackFinish (res : Except String String) (finishMs : Nat)

/-- One atomic step of a deployment record: `none` when the event cannot
fire (its guard, read off the source, fails). The single job token
serializes one record's jobs, and `rollbackSubmit` takes the route
handler's check and save together: this models the executions in which
at most one job is scheduled at a time and submissions do not race. The
`sysStep` model below drops both restrictions — it splits the submission
into its non-atomic check and save phases and admits several
concurrently scheduled rollback jobs, as the source can produce. -/
def step (d : Deployment) (e : Event) : Option Deployment :=
  match e with
  | Event.deployStart =>
      if d.job = some JobPhase.deployQueued then
        some { d with
          status := Status.deploying,
          logs := d.logs ++ [⟨"Starting deployment process...", LogType.info⟩],
          job := some JobPhase.deployRunning }
      else none
  | Event.deployFinish res startMs finishMs cost =>
      if d.job = some JobPhase.deployRunning then
        match res with
        | Except.ok r =>
            some { d with
              status := Status.deployed,
              outputs := some r.outputs,
              deployedAt := some finishMs,
              deploymentTime := some (msToRoundedSeconds (finishMs - startMs)),
              costEstimate := some cost,
              logs := d.logs ++ [⟨"Deployment completed successfully", LogType.success⟩],
              job := none }
        | Except.error msg =>
            some { d with
              status := Status.failed,
              logs := d.logs ++ [⟨"Deployment failed: " ++ msg, LogType.error⟩],
              job := none }
      else none
  | Event.rollbackSubmit =>
      if d.status = Status.deployed then
        some { d with
          status := Status.rolling_back,
          job := some JobPhase.rollbackQueued }
      else none
  | Event.rollbackStart =>
      if d.job = some JobPhase.rollbackQueued then
        some { d with
          logs := d.logs ++ [⟨"Starting rollback process...", LogType.info⟩],
          job := some JobPhase.rollbackRunning }
      else none
  | Event.rollbackFinish res finishMs =>
      if d.job = some JobPhase.rollbackRunning then
        match res with
        | Except.ok _ =>
            some { d with
              status := Status.rolled_back,
              rolledBackAt := some finishMs,
              logs := d.logs ++ [⟨"Rollback completed successfully", LogType.success⟩],
              job := none }
        | Except.error msg =>
            some { d with
              status := Status.failed,
              logs := d.logs ++ [⟨"Rollback failed: " ++ msg, LogType.error⟩],
              job := none }
      else none

/-- The deployment records producible under serialized job scheduling (at
most one scheduled job at a time): a fresh record, closed under the
atomic steps. `SysReachable` below closes over the full model, which also
admits concurrently scheduled rollback jobs. -/
inductive Reachable : Deployment → Prop
  | init : Reachable newDeployment
  | next {d d' : Deployment} (e : Event) :
      Reachable d → step d e = some d' → Reachable d'

/-- Shape of a POST /api/deployments request body, reduced to the two
presence checks the handler performs (`deployments.js` line 53). -/
structure CreateRequest where
  hasTerraformCode : Bool
  hasProvider : Bool
  deriving DecidableEq, Repr

/-- Outcome of the create-deployment route handler: either a synchronous
4xx rejection carrying an error string and optional details, or a 201
with the saved record (and the deploy job scheduled). -/
inductive CreateOutcome
  | badRequest (error : String) (details : Option String)
  | created (record : Deployment)
  deriving DecidableEq, Repr

/-- Whether the outcome saved a deployment record. -/
def CreateOutcome.producesRecord : CreateOutcome → Bool
  | CreateOutcome.badRequest _ _ => false
  | CreateOutcome.created _ => true

/-- The create-deployment route handler, POST / (`deployments.js` lines
49-103): rejects with 400 when code or provider is missing; runs
`validateInfrastructure` and rejects with 400 carrying the diagnostic when
it reports invalid; otherwise saves a fresh `pending` record and schedules
`processDeployment`. -/
def createDeployment (req : CreateRequest) (venv : ValidateEnv) : CreateOutcome :=
  if req.hasTerraformCode = false ∨ req.hasProvider = false then
    CreateOutcome.badRequest "Terraform code and provider are required" none
  else
    let validation := (validateInfrastructure venv).1
    if validation.valid = false then
      CreateOutcome.badRequest "Invalid Terraform configuration" validation.error
    else
      CreateOutcome.created newDeployment

/-- Outcome of the delete-deployment route handler. -/
inductive DeleteOutcome
  | notFound
  | deleted
  deriving DecidableEq, Repr

/-- The delete route handler, DELETE /:id (`deployments.js` lines
330-356): `findOneAndDelete` filtered only on id and user — no status or
active-job condition — so any existing record is removed; the second
component is the stored record afterwards. -/
def deleteRoute : Option Deployment → DeleteOutcome × Option Deployment
  | none => (DeleteOutcome.notFound, none)
  | some _ => (DeleteOutcome.deleted, none)

/-- Program counter of one in-flight POST /rollback request
(`deployments.js` lines 239-288). The handler awaits
`findOne (status = deployed)` — a yield point of the event loop — and
only then sets `status = rolling_back`, awaits `save`, and schedules
`processRollback`; so check and update are separate atomic phases. -/
inductive ReqPhase
  | beforeCheck
  | beforeSave
  | doneAccepted
  | doneRejected
  deriving DecidableEq, Repr

/-- Two concurrent rollback requests racing on one deployment record.
`scheduledRollbackJobs` counts the `processRollback` jobs scheduled via
`setImmediate`. -/
structure RaceState where
  dep : Deployment
  req1 : ReqPhase
  req2 : ReqPhase
  scheduledRollbackJobs : Nat
  deriving DecidableEq, Repr

/-- Replace the phase of request `i`. -/
def setPhase (s : RaceState) (i : Fin 2) (p : ReqPhase) : RaceState :=
  if i = 0 then { s with req1 := p } else { s with req2 := p }

/-- Run the next phase of request `i`, exactly as the handler does between
two awaits: the check phase reads the current status and either proceeds
or responds 404; the save phase writes `rolling_back`, schedules a
`processRollback` job and responds success. -/
def raceStep (s : RaceState) (i : Fin 2) : RaceState :=
  match (if i = 0 then s.req1 else s.req2) with
  | ReqPhase.beforeCheck =>
      if s.dep.status = Status.deployed then setPhase s i ReqPhase.beforeSave
      else setPhase s i ReqPhase.doneRejected
  | ReqPhase.beforeSave =>
      setPhase
        { s with
          dep := { s.dep with
            status := Status.rolling_back,
            job := some JobPhase.rollbackQueued },
          scheduledRollbackJobs := s.scheduledRollbackJobs + 1 }
        i ReqPhase.doneAccepted
  | ReqPhase.doneAccepted => s
  | ReqPhase.doneRejected => s

/-- Run an event-loop schedule: at each point the event loop resumes one
of the two request handlers. -/
def runRace : RaceState → List (Fin 2) → RaceState
  | s, [] => s
  | s, i :: rest => runRace (raceStep s i) rest

/-- A sample successful `deployInfrastructure` result. -/
def okSampleResult : DeployResult :=
  ⟨[("instance_ip", "10.0.0.1")], "plan-out", "apply-out"⟩

/-- The record after `deployStart` fires on a fresh record. -/
def exDeploying : Deployment :=
  { newDeployment with
    status := Status.deploying,
    logs := [⟨"Starting deployment process...", LogType.info⟩],
    job := some JobPhase.deployRunning }

/-- The record after a successful apply finishing at millisecond 61000,
having started at 1000, with a cost estimate attached. -/
def exDeployed : Deployment :=
  { exDeploying with
    status := Status.deployed,
    outputs := some okSampleResult.outputs,
    deployedAt := some 61000,
    deploymentTime := some (msToRoundedSeconds (61000 - 1000)),
    costEstimate := some (CostResult.estimate mockCostBreakdown),
    logs := exDeploying.logs ++ [⟨"Deployment completed successfully", LogType.success⟩],
    job := none }

/-- The record after a rollback submission is accepted on `exDeployed`. -/
def exRollingBack : Deployment :=
  { exDeployed with
    status := Status.rolling_back,
    job := some JobPhase.rollbackQueued }

/-- The record after `processRollback` has written its starting log. -/
def exRollingBackStarted : Deployment :=
  { exRollingBack with
    logs := exRollingBack.logs ++ [⟨"Starting rollback process...", LogType.info⟩],
    job := some JobPhase.rollbackRunning }

/-- The record after a successful destroy at millisecond 120000. -/
def exRolledBack : Deployment :=
  { exRollingBackStarted with
    status := Status.rolled_back,
    rolledBackAt := some 120000,
    logs := exRollingBackStarted.logs ++ [⟨"Rollback completed successfully", LogType.success⟩],
    job := none }

/-- A deploy environment where every terraform command succeeds but the
stdout of `terraform output -json` is unparsable. -/
def parseFailEnv : DeployEnv :=
  { initRun := Except.ok "", initMs := 2000,
    planRun := Except.ok "plan-out", planMs := 3000,
    applyRun := Except.ok "apply-out", applyMs := 5000,
    outputRun := Except.ok "mangled-output", outputMs := 100,
    parse := fun _ => none }

/-- A deploy environment where every command succeeds and the apply
subprocess runs for 1000000000 milliseconds (over 11 days). -/
def slowApplyEnv : DeployEnv :=
  { initRun := Except.ok "", initMs := 2000,
    planRun := Except.ok "plan-out", planMs := 3000,
    applyRun := Except.ok "apply-out", applyMs := 1000000000,
    outputRun := Except.ok "raw-output", outputMs := 100,
    parse := fun _ => some okSampleResult.outputs }

/-- A validation environment in which `terraform validate` rejects the
configuration. -/
def invalidTfEnv : ValidateEnv :=
  { setupRun := Except.ok (),
    initRun := Except.ok "", initMs := 1000,
    validateRun := Except.error "Error: Unsupported block type", validateMs := 500 }

/-- The initial state of two concurrent rollback submissions racing on a
deployed record. -/
def raceInit : RaceState :=
  ⟨exDeployed, ReqPhase.beforeCheck, ReqPhase.beforeCheck, 0⟩

/-- The record left by a failed destroy during `processRollback`, where
the caught message is the one `rollbackDeployment` throws when the
project path is missing. -/
def exRollbackFailed : Deployment :=
  { exRollingBackStarted with
    status := Status.failed,
    logs := exRollingBackStarted.logs ++
      [⟨"Rollback failed: " ++ "Rollback failed: Project path does not exist", LogType.error⟩],
    job := none }

/-- Program counter of the single `processDeployment` job of a record:
it is scheduled exactly once, when the record is created. -/
inductive DeployJob
  | queued
  | running
  deriving DecidableEq, Repr

/-- Full system state of one deployment record together with its
scheduler. Unlike the single-token `step` model, this model is faithful
to the concurrent executions of the source: `passedChecks` counts
in-flight rollback submissions that passed the `findOne` check but have
not yet saved (the two are separated by awaits), and `queuedJobs` /
`runningJobs` count the scheduled `processRollback` jobs by program
counter — several can be scheduled at once, as proved by
`two_rollbacks_both_accepted`, and their bodies perform no status check.
The record's `job` token is unused at this level and kept `none`. -/
structure Sys where
  dep : Deployment
  djob : Option DeployJob
  passedChecks : Nat
  queuedJobs : Nat
  runningJobs : Nat
  deriving DecidableEq, Repr

/-- The atomic persisted mutations at system level. `rollbackCheck` and
`rollbackSave` are the two non-atomic phases of the rollback route
handler (`deployments.js` lines 249-274); `rollbackLog` and
`rollbackFinish` are the two save points of one scheduled
`processRollback` job (lines 417-446), which never re-checks the
status. -/
inductive SysEvent
  | deployStart
  | deployFinish (res : Except String DeployResult) (startMs finishMs : Nat)
      (cost : CostResult)
  | rollbackCheck
  | rollbackSave
  | rollbackLog
  | rollbackFinish (res : Except String String) (finishMs : Nat)

/-- One atomic step at system level: `none` when the event cannot fire.
Guards come only from the source: the deploy job runs its two halves in
order; a rollback check requires the record to read `deployed`; a save
requires a passed check; the job halves require a scheduled job — no
status guard, exactly as in `processRollback`. -/
def sysStep (s : Sys) (e : SysEvent) : Option Sys :=
  match e with
  | SysEvent.deployStart =>
      if s.djob = some DeployJob.queued then
        some { s with
          dep := { s.dep with
            status := Status.deploying,
            logs := s.dep.logs ++ [⟨"Starting deployment process...", LogType.info⟩] },
          djob := some DeployJob.running }
      else none
  | SysEvent.deployFinish res startMs finishMs cost =>
      if s.djob = some DeployJob.running then
        match res with
        | Except.ok r =>
            some { s with
              dep := { s.dep with
                status := Status.deployed,
                outputs := some r.outputs,
                deployedAt := some finishMs,
                deploymentTime := some (msToRoundedSeconds (finishMs - startMs)),
                costEstimate := some cost,
                logs := s.dep.logs ++
                  [⟨"Deployment completed successfully", LogType.success⟩] },
              djob := none }
        | Except.error msg =>
            some { s with
              dep := { s.dep with
                status := Status.failed,
                logs := s.dep.logs ++
                  [⟨"Deployment failed: " ++ msg, LogType.error⟩] },
              djob := none }
      else none
  | SysEvent.rollbackCheck =>
      if s.dep.status = Status.deployed then
        some { s with passedChecks := s.passedChecks + 1 }
      else none
  | SysEvent.rollbackSave =>
      if 0 < s.passedChecks then
        some { s with
          dep := { s.dep with status := Status.rolling_back },
          passedChecks := s.passedChecks - 1,
          queuedJobs := s.queuedJobs + 1 }
      else none
  | SysEvent.rollbackLog =>
      if 0 < s.queuedJobs then
        some { s with
          dep := { s.dep with
            logs := s.dep.logs ++ [⟨"Starting rollback process...", LogType.info⟩] },
          queuedJobs := s.queuedJobs - 1,
          runningJobs := s.runningJobs + 1 }
      else none
  | SysEvent.rollbackFinish res finishMs =>
      if 0 < s.runningJobs then
        match res with
        | Except.ok _ =>
            some { s with
              dep := { s.dep with
                status := Status.rolled_back,
                rolledBackAt := some finishMs,
                logs := s.dep.logs ++
                  [⟨"Rollback completed successfully", LogType.success⟩] },
              runningJobs := s.runningJobs - 1 }
        | Except.error msg =>
            some { s with
              dep := { s.dep with
                status := Status.failed,
                logs := s.dep.logs ++
                  [⟨"Rollback failed: " ++ msg, LogType.error⟩] },
              runningJobs := s.runningJobs - 1 }
      else none

/-- The system state of a freshly created deployment. -/
def sysInit : Sys :=
  ⟨{ newDeployment with job := none }, some DeployJob.queued, 0, 0, 0⟩

/-- Run a sequence of system events, failing if any cannot fire. -/
def sysRun : Sys → List SysEvent → Option Sys
  | s, [] => some s
  | s, e :: rest => (sysStep s e).bind (fun s1 => sysRun s1 rest)

/-- The system states producible by the source, including executions
with several concurrently scheduled rollback jobs. -/
inductive SysReachable : Sys → Prop
  | init : SysReachable sysInit
  | next {s s' : Sys} (e : SysEvent) :
      SysReachable s → sysStep s e = some s' → SysReachable s'

/-- An execution in which a deploy succeeds, two concurrent rollback
submissions are both accepted (both checks pass before either save), both
jobs write their starting logs, and then the first destroy fails. -/
def c4FailTrace : List SysEvent :=
  [SysEvent.deployStart,
   SysEvent.deployFinish (Except.ok okSampleResult) 1000 61000
     (CostResult.estimate mockCostBreakdown),
   SysEvent.rollbackCheck, SysEvent.rollbackCheck,
   SysEvent.rollbackSave, SysEvent.rollbackSave,
   SysEvent.rollbackLog, SysEvent.rollbackLog,
   SysEvent.rollbackFinish
     (Except.error "Rollback failed: Project path does not exist") 130000]

/-- Same double-acceptance execution, but the first destroy succeeds. -/
def c7SuccTrace : List SysEvent :=
  [SysEvent.deployStart,
   SysEvent.deployFinish (Except.ok okSampleResult) 1000 61000
     (CostResult.estimate mockCostBreakdown),
   SysEvent.rollbackCheck, SysEvent.rollbackCheck,
   SysEvent.rollbackSave, SysEvent.rollbackSave,
   SysEvent.rollbackLog, SysEvent.rollbackLog,
   SysEvent.rollbackFinish
     (Except.ok "Infrastructure rolled back successfully") 120000]

/-- The system state after `c4FailTrace`: status `failed`, one rollback
job still running. -/
def sysAfterFail : Sys :=
  ⟨⟨Status.failed, some okSampleResult.outputs,
    [⟨"Starting deployment process...", LogType.info⟩,
     ⟨"Deployment completed successfully", LogType.success⟩,
     ⟨"Starting rollback process...", LogType.info⟩,
     ⟨"Starting rollback process...", LogType.info⟩,
     ⟨"Rollback failed: " ++ "Rollback failed: Project path does not exist",
       LogType.error⟩],
    some (CostResult.estimate mockCostBreakdown),
    some (msToRoundedSeconds (61000 - 1000)), some 61000, none, none⟩,
   none, 0, 0, 1⟩

/-- The state after the second, still-scheduled rollback job of
`sysAfterFail` succeeds: `rolled_back` entered directly from `failed`. -/
def sysRolledAfterFail : Sys :=
  { sysAfterFail with
    dep := { sysAfterFail.dep with
      status := Status.rolled_back,
      rolledBackAt := some 140000,
      logs := sysAfterFail.dep.logs ++
        [⟨"Rollback completed successfully", LogType.success⟩] },
    runningJobs := 0 }

/-- The system state after `c7SuccTrace`: status `rolled_back` with
`rolledBackAt` set, one rollback job still running. -/
def sysAfterSucc : Sys :=
  ⟨⟨Status.rolled_back, some okSampleResult.outputs,
    [⟨"Starting deployment process...", LogType.info⟩,
     ⟨"Deployment completed successfully", LogType.success⟩,
     ⟨"Starting rollback process...", LogType.info⟩,
     ⟨"Starting rollback process...", LogType.info⟩,
     ⟨"Rollback completed successfully", LogType.success⟩],
    some (CostResult.estimate mockCostBreakdown),
    some (msToRoundedSeconds (61000 - 1000)), some 61000, some 120000, none⟩,
   none, 0, 0, 1⟩

/-- The state after the second rollback job of `sysAfterSucc` fails its
destroy: status `failed` while `rolledBackAt` stays set. -/
def sysFailedAfterSucc : Sys :=
  { sysAfterSucc with
    dep := { sysAfterSucc.dep with
      status := Status.failed,
      logs := sysAfterSucc.dep.logs ++
        [⟨"Rollback failed: " ++ "Rollback failed: boom", LogType.error⟩] },
    runningJobs := 0 }

/-- Invariant of every producible system state: a `pending` record has no
deployment timestamp, a `deployed` one has it, any in-flight submission
or scheduled rollback job implies it is set (they exist only after the
record was observed `deployed`), and so do the rolling-back and
rolled-back statuses. -/
structure SysInv (s : Sys) : Prop where
  pending_fresh : s.dep.status = Status.pending → s.dep.deployedAt = none
  deployed_at : s.dep.status = Status.deployed → s.dep.deployedAt.isSome
  sched_deployedAt :
    0 < s.passedChecks ∨ 0 < s.queuedJobs ∨ 0 < s.runningJobs →
    s.dep.deployedAt.isSome
  rb_deployedAt :
    s.dep.status = Status.rolling_back ∨ s.dep.status = Status.rolled_back →
    s.dep.deployedAt.isSome

/-- Structural invariant of every deployment record producible in the
serialized (single-job-token) model: the job token agrees with the
status, a `deployed` record carries its result fields, an active or
rolled-back record has been deployed before, and `rolledBackAt` is set
only in `rolled_back`. -/
structure Inv (d : Deployment) : Prop where
  dq_pending : d.job = some JobPhase.deployQueued → d.status = Status.pending
  dr_deploying : d.job = some JobPhase.deployRunning → d.status = Status.deploying
  rq_rolling : d.job = some JobPhase.rollbackQueued → d.status = Status.rolling_back
  rr_rolling : d.job = some JobPhase.rollbackRunning → d.status = Status.rolling_back
  deployed_fields : d.status = Status.deployed →
    d.outputs.isSome ∧ d.deployedAt.isSome ∧ d.deploymentTime.isSome ∧ d.job = none
  rb_deployedAt :
    d.status = Status.rolling_back ∨ d.status = Status.rolled_back → d.deployedAt.isSome
  rbAt_unset : d.status ≠ Status.rolled_back → d.rolledBackAt = none

theorem inv_step {d d' : Deployment} {e : Event} (hinv : Inv d)
    (h : step d e = some d') : Inv d' := by
  obtain ⟨h1, h2, h3, h4, h5, h6, h7⟩ := hinv
  cases e with
  | deployStart =>
      simp only [step] at h
      split at h
      case isTrue hq =>
        have hps := h1 hq
        injection h with h
        subst h
        refine ⟨?_, ?_, ?_, ?_, ?_, ?_, ?_⟩ <;> simp_all
      case isFalse => simp at h
  | deployFinish res startMs finishMs cost =>
      simp only [step] at h
      split at h
      case isTrue hq =>
        have hds := h2 hq
        cases res with
        | ok r =>
            injection h with h
            subst h
            refine ⟨?_, ?_, ?_, ?_, ?_, ?_, ?_⟩ <;> simp_all
        | error msg =>
            injection h with h
            subst h
            refine ⟨?_, ?_, ?_, ?_, ?_, ?_, ?_⟩ <;> simp_all
      case isFalse => simp at h
  | rollbackSubmit =>
      simp only [step] at h
      split at h
      case isTrue hs =>
        obtain ⟨ho, hda, hdt, hjn⟩ := h5 hs
        injection h with h
        subst h
        refine ⟨?_, ?_, ?_, ?_, ?_, ?_, ?_⟩ <;> simp_all
      case isFalse => simp at h
  | rollbackStart =>
      simp only [step] at h
      split at h
      case isTrue hq =>
        have hrs := h3 hq
        injection h with h
        subst h
        refine ⟨?_, ?_, ?_, ?_, ?_, ?_, ?_⟩ <;> simp_all
      case isFalse => simp at h
  | rollbackFinish res finishMs =>
      simp only [step] at h
      split at h
      case isTrue hq =>
        have hrs := h4 hq
        cases res with
        | ok msg =>
            injection h with h
            subst h
            refine ⟨?_, ?_, ?_, ?_, ?_, ?_, ?_⟩ <;> simp_all
        | error msg =>
            injection h with h
            subst h
            refine ⟨?_, ?_, ?_, ?_, ?_, ?_, ?_⟩ <;> simp_all
      case isFalse => simp at h

/-- Every deployment record producible in the serialized model satisfies
the structural invariant. -/
theorem reachable_inv {d : Deployment} (h : Reachable d) : Inv d := by
  induction h with
  | init =>
      refine ⟨?_, ?_, ?_, ?_, ?_, ?_, ?_⟩ <;> simp [newDeployment]
  | next e hr hs ih => exact inv_step ih hs

theorem reach_exDeploying : Reachable exDeploying :=
  Reachable.next Event.deployStart Reachable.init rfl

theorem reach_exDeployed : Reachable exDeployed :=
  Reachable.next
    (Event.deployFinish (Except.ok okSampleResult) 1000 61000
      (CostResult.estimate mockCostBreakdown))
    reach_exDeploying rfl

theorem reach_exRollingBack : Reachable exRollingBack :=
  Reachable.next Event.rollbackSubmit reach_exDeployed rfl

theorem reach_exRollingBackStarted : Reachable exRollingBackStarted :=
  Reachable.next Event.rollbackStart reach_exRollingBack rfl

theorem sysInv_step {s s' : Sys} {e : SysEvent} (hinv : SysInv s)
    (h : sysStep s e = some s') : SysInv s' := by
  obtain ⟨h1, h2, h3, h4⟩ := hinv
  cases e with
  | deployStart =>
      simp only [sysStep] at h
      split at h
      case isTrue hq =>
        injection h with h
        subst h
        refine ⟨?_, ?_, ?_, ?_⟩ <;> simp_all
      case isFalse => simp at h
  | deployFinish res startMs finishMs cost =>
      simp only [sysStep] at h
      split at h
      case isTrue hq =>
        cases res with
        | ok r =>
            injection h with h
            subst h
            refine ⟨?_, ?_, ?_, ?_⟩ <;> simp_all
        | error msg =>
            injection h with h
            subst h
            refine ⟨?_, ?_, ?_, ?_⟩ <;> simp_all
      case isFalse => simp at h
  | rollbackCheck =>
      simp only [sysStep] at h
      split at h
      case isTrue hs =>
        have hda := h2 hs
        injection h with h
        subst h
        refine ⟨?_, ?_, ?_, ?_⟩ <;> simp_all
      case isFalse => simp at h
  | rollbackSave =>
      simp only [sysStep] at h
      split at h
      case isTrue hp =>
        have hda := h3 (Or.inl hp)
        injection h with h
        subst h
        refine ⟨?_, ?_, ?_, ?_⟩ <;> simp_all
      case isFalse => simp at h
  | rollbackLog =>
      simp only [sysStep] at h
      split at h
      case isTrue hq =>
        have hda := h3 (Or.inr (Or.inl hq))
        injection h with h
        subst h
        refine ⟨?_, ?_, ?_, ?_⟩ <;> simp_all
      case isFalse => simp at h
  | rollbackFinish res finishMs =>
      simp only [sysStep] at h
      split at h
      case isTrue hr0 =>
        have hda := h3 (Or.inr (Or.inr hr0))
        cases res with
        | ok msg =>
            injection h with h
            subst h
            refine ⟨?_, ?_, ?_, ?_⟩ <;> simp_all
        | error msg =>
            injection h with h
            subst h
            refine ⟨?_, ?_, ?_, ?_⟩ <;> simp_all
      case isFalse => simp at h

/-- Every producible system state satisfies the system invariant. -/
theorem sysReachable_inv {s : Sys} (h : SysReachable s) : SysInv s := by
  induction h with
  | init =>
      refine ⟨?_, ?_, ?_, ?_⟩ <;> simp [sysInit, newDeployment]
  | next e hr hs ih => exact sysInv_step ih hs

/-- Any state produced by running a schedule from a producible state is
producible. -/
theorem sysRun_reachable : ∀ (tr : List SysEvent) (s s' : Sys),
    SysReachable s → sysRun s tr = some s' → SysReachable s' := by
  intro tr
  induction tr with
  | nil =>
      intro s s' h0 h
      simp only [sysRun] at h
      injection h with h
      subst h
      exact h0
  | cons e rest ih =>
      intro s s' h0 h
      simp only [sysRun] at h
      cases he : sysStep s e with
      | none => rw [he] at h; simp at h
      | some s1 =>
          rw [he] at h
          simp only [Option.some_bind] at h
          exact ih s1 s' (SysReachable.next e h0 he) h

theorem token_rolled_back_from_rolling :
    ∀ (d d' : Deployment) (e : Event), Reachable d → step d e = some d' →
      d'.status = Status.rolled_back → d.status = Status.rolling_back := by
  intro d d' e hr h hst
  obtain ⟨h1, h2, h3, h4, h5, h6, h7⟩ := reachable_inv hr
  cases e with
  | deployStart =>
      simp only [step] at h
      split at h
      · injection h with h; subst h; simp_all
      · simp at h
  | deployFinish res startMs finishMs cost =>
      simp only [step] at h
      split at h
      · cases res with
        | ok r => injection h with h; subst h; simp_all
        | error msg => injection h with h; subst h; simp_all
      · simp at h
  | rollbackSubmit =>
      simp only [step] at h
      split at h
      · injection h with h; subst h; simp_all
      · simp at h
  | rollbackStart =>
      simp only [step] at h
      split at h
      case isTrue hq =>
        injection h with h
        subst h
        simp only at hst
        exact absurd (h3 hq) (by simp_all)
      case isFalse => simp at h
  | rollbackFinish res finishMs =>
      simp only [step] at h
      split at h
      case isTrue hq =>
        cases res with
        | ok msg => exact h4 hq
        | error msg => injection h with h; subst h; simp_all
      case isFalse => simp at h

theorem token_rolling_from_deployed :
    ∀ (d d' : Deployment) (e : Event), Reachable d → step d e = some d' →
      d'.status = Status.rolling_back → d.status ≠ Status.rolling_back →
      d.status = Status.deployed := by
  intro d d' e hr h hst hne
  obtain ⟨h1, h2, h3, h4, h5, h6, h7⟩ := reachable_inv hr
  cases e with
  | deployStart =>
      simp only [step] at h
      split at h
      · injection h with h; subst h; simp_all
      · simp at h
  | deployFinish res startMs finishMs cost =>
      simp only [step] at h
      split at h
      · cases res with
        | ok r => injection h with h; subst h; simp_all
        | error msg => injection h with h; subst h; simp_all
      · simp at h
  | rollbackSubmit =>
      simp only [step] at h
      split at h
      case isTrue hs => exact hs
      case isFalse => simp at h
  | rollbackStart =>
      simp only [step] at h
      split at h
      case isTrue hq => exact absurd (h3 hq) hne
      case isFalse => simp at h
  | rollbackFinish res finishMs =>
      simp only [step] at h
      split at h
      · cases res with
        | ok msg => injection h with h; subst h; simp_all
        | error msg => injection h with h; subst h; simp_all
      · simp at h

/-- Claim C1, counterexample: the rollback handler's status check and
status update are separated by awaits, so two concurrently interleaved
rollback submissions for the same deployed record (schedule: both checks
first, then both saves) are BOTH accepted, scheduling two rollback jobs —
refuting that concurrent submissions yield exactly one accepted job. -/
theorem two_rollbacks_both_accepted :
    exDeployed.status = Status.deployed ∧ Reachable exDeployed ∧
    (runRace raceInit [0, 1, 0, 1]).req1 = ReqPhase.doneAccepted ∧
    (runRace raceInit [0, 1, 0, 1]).req2 = ReqPhase.doneAccepted ∧
    (runRace raceInit [0, 1, 0, 1]).scheduledRollbackJobs = 2 :=
  ⟨rfl, reach_exDeployed, rfl, rfl, rfl⟩

/-- Claim C1, amended: a rollback submission is rejected whenever the
record's status is an active one (`deploying` or `rolling_back`), and a
submission accepted on a `deployed` record makes any subsequent
submission for that record rejected — so serialized submissions yield
exactly one accepted job; only non-atomic interleaved submissions can
both be accepted. -/
theorem rollback_submit_exclusion :
    (∀ d : Deployment,
        d.status = Status.deploying ∨ d.status = Status.rolling_back →
        step d Event.rollbackSubmit = none) ∧
    (∀ d d' : Deployment, step d Event.rollbackSubmit = some d' →
        step d' Event.rollbackSubmit = none) := by
  constructor
  · intro d hd
    simp only [step]
    rcases hd with h | h <;> simp [h]
  · intro d d' h
    simp only [step] at h ⊢
    split at h
    · injection h with h
      subst h
      simp
    · simp at h

/-- Claim C1, witness: a deploying record and a rolling-back record each
reject a rollback submission. -/
theorem rollback_submit_exclusion_witness :
    step exDeploying Event.rollbackSubmit = none ∧
    step exRollingBack Event.rollbackSubmit = none :=
  ⟨rollback_submit_exclusion.1 exDeploying (Or.inl rfl),
   rollback_submit_exclusion.2 exDeployed exRollingBack rfl⟩

/-- Claim C2, counterexample: a submission whose description fails
backend validation is rejected synchronously with a 400 carrying the
diagnostic — no deployment record (in particular no `failed` record with
an `error` log entry) is ever created. -/
theorem validation_failure_returns_400 :
    createDeployment ⟨true, true⟩ invalidTfEnv =
      CreateOutcome.badRequest "Invalid Terraform configuration"
        (some "Error: Unsupported block type") ∧
    (createDeployment ⟨true, true⟩ invalidTfEnv).producesRecord = false :=
  ⟨rfl, rfl⟩

/-- Claim C2, amended: when the backend validation of a well-formed
submission reports invalid, the create route answers 400 with the
diagnostic as details, creates no deployment record, and schedules no
job (so no workspace for a deployment is ever created). -/
theorem validation_failure_rejected_synchronously
    (req : CreateRequest) (venv : ValidateEnv)
    (hc : req.hasTerraformCode = true) (hp : req.hasProvider = true)
    (hv : (validateInfrastructure venv).1.valid = false) :
    createDeployment req venv =
      CreateOutcome.badRequest "Invalid Terraform configuration"
        (validateInfrastructure venv).1.error ∧
    (createDeployment req venv).producesRecord = false := by
  simp [createDeployment, hc, hp, hv, CreateOutcome.producesRecord]

/-- Claim C2, witness: the amended statement at a concrete rejected
configuration. -/
theorem validation_failure_rejected_synchronously_witness :
    createDeployment ⟨true, true⟩ invalidTfEnv =
      CreateOutcome.badRequest "Invalid Terraform configuration"
        (validateInfrastructure invalidTfEnv).1.error ∧
    (createDeployment ⟨true, true⟩ invalidTfEnv).producesRecord = false :=
  validation_failure_rejected_synchronously ⟨true, true⟩ invalidTfEnv rfl rfl rfl

/-- Claim C3: a successful apply transitions the record to `deployed`,
setting `outputs`, `deployedAt`, a nonnegative `deploymentTime`, and
appending the `success` log entry; and every producible record with
status `deployed` has all three fields set. -/
theorem deployed_status_fields :
    (∀ (d d' : Deployment) (r : DeployResult) (startMs finishMs : Nat)
        (cost : CostResult),
        step d (Event.deployFinish (Except.ok r) startMs finishMs cost) = some d' →
        d'.status = Status.deployed ∧
        d'.outputs = some r.outputs ∧
        d'.deployedAt = some finishMs ∧
        (∃ t, d'.deploymentTime = some t ∧ 0 ≤ t) ∧
        d'.logs = d.logs ++ [⟨"Deployment completed successfully", LogType.success⟩]) ∧
    (∀ d : Deployment, Reachable d → d.status = Status.deployed →
        d.outputs.isSome ∧ d.deployedAt.isSome ∧
        ∃ t, d.deploymentTime = some t ∧ 0 ≤ t) := by
  constructor
  · intro d d' r startMs finishMs cost h
    simp only [step] at h
    split at h
    · injection h with h
      subst h
      exact ⟨rfl, rfl, rfl, ⟨msToRoundedSeconds (finishMs - startMs), rfl, Nat.zero_le _⟩, rfl⟩
    · simp at h
  · intro d hr hd
    obtain ⟨ho, hda, hdt, _⟩ := (reachable_inv hr).deployed_fields hd
    obtain ⟨t, ht⟩ := Option.isSome_iff_exists.mp hdt
    exact ⟨ho, hda, t, ht, Nat.zero_le _⟩

/-- Claim C3, witness: the producible deployed record `exDeployed` has
outputs, a deployment timestamp and a nonnegative deployment time. -/
theorem deployed_status_fields_witness :
    exDeployed.outputs.isSome ∧ exDeployed.deployedAt.isSome ∧
    ∃ t, exDeployed.deploymentTime = some t ∧ 0 ≤ t :=
  deployed_status_fields.2 exDeployed reach_exDeployed rfl

/-- Claim C4, counterexample: with two concurrently accepted rollback
submissions (the scenario of `two_rollbacks_both_accepted`), the two
scheduled `processRollback` jobs run without re-checking the status; if
the first destroy fails the record reads `failed`, and the second job's
successful destroy then moves it to `rolled_back` — so `rolled_back` IS
reachable directly from `failed`, refuting the claim. -/
theorem rolled_back_directly_after_failed :
    sysRun sysInit c4FailTrace = some sysAfterFail ∧
    sysAfterFail.dep.status = Status.failed ∧
    sysStep sysAfterFail
        (SysEvent.rollbackFinish
          (Except.ok "Infrastructure rolled back successfully") 140000) =
      some sysRolledAfterFail ∧
    sysRolledAfterFail.dep.status = Status.rolled_back :=
  ⟨rfl, rfl, rfl, rfl⟩

/-- Claim C4, amended: a deployment newly enters `rolled_back` only
through a successful destroy of a scheduled rollback job; such jobs exist
only for records that were observed `deployed` (so the record entering
`rolled_back` has `deployedAt` set, is never `pending`, and a
never-deployed deployment can never be rolled back); and under
serialized submissions — at most one scheduled job at a time — the
status immediately preceding `rolled_back` is `rolling_back`, entered
only from `deployed`. With two concurrently accepted rollbacks, however,
`rolled_back` can directly follow `failed`. -/
theorem rolled_back_entry_characterized :
    (∀ (s s' : Sys) (e : SysEvent), SysReachable s → sysStep s e = some s' →
        s'.dep.status = Status.rolled_back → s.dep.status ≠ Status.rolled_back →
        (∃ m t, e = SysEvent.rollbackFinish (Except.ok m) t) ∧
        0 < s.runningJobs ∧ s.dep.status ≠ Status.pending ∧
        s.dep.deployedAt.isSome) ∧
    (∀ s : Sys, SysReachable s →
        s.dep.status = Status.rolling_back ∨ s.dep.status = Status.rolled_back →
        s.dep.deployedAt.isSome) ∧
    (∀ (d d' : Deployment) (e : Event), Reachable d → step d e = some d' →
        d'.status = Status.rolled_back → d.status = Status.rolling_back) ∧
    (∀ (d d' : Deployment) (e : Event), Reachable d → step d e = some d' →
        d'.status = Status.rolling_back → d.status ≠ Status.rolling_back →
        d.status = Status.deployed) := by
  refine ⟨?_, ?_, token_rolled_back_from_rolling, token_rolling_from_deployed⟩
  · intro s s' e hr h hst hne
    obtain ⟨h1, h2, h3, h4⟩ := sysReachable_inv hr
    cases e with
    | deployStart =>
        simp only [sysStep] at h
        split at h
        · injection h with h; subst h; simp at hst
        · simp at h
    | deployFinish res startMs finishMs cost =>
        simp only [sysStep] at h
        split at h
        · cases res with
          | ok r => injection h with h; subst h; simp at hst
          | error msg => injection h with h; subst h; simp at hst
        · simp at h
    | rollbackCheck =>
        simp only [sysStep] at h
        split at h
        · injection h with h; subst h; exact absurd hst hne
        · simp at h
    | rollbackSave =>
        simp only [sysStep] at h
        split at h
        · injection h with h; subst h; simp at hst
        · simp at h
    | rollbackLog =>
        simp only [sysStep] at h
        split at h
        · injection h with h; subst h; exact absurd hst hne
        · simp at h
    | rollbackFinish res t =>
        simp only [sysStep] at h
        split at h
        case isTrue hr0 =>
          cases res with
          | ok m =>
              injection h with h
              subst h
              have hda := h3 (Or.inr (Or.inr hr0))
              refine ⟨⟨m, t, rfl⟩, hr0, ?_, hda⟩
              intro hp
              rw [h1 hp] at hda
              simp at hda
          | error msg => injection h with h; subst h; simp at hst
        case isFalse => simp at h
  · intro s hr hd
    exact (sysReachable_inv hr).rb_deployedAt hd

/-- Claim C4, witness: applying the amended theorem on the concrete
double-rollback run (the failed record entering `rolled_back` came via a
successful destroy of a scheduled job, was not pending, and had been
deployed), and on the serialized run through `exRolledBack`. -/
theorem rolled_back_entry_characterized_witness :
    ((∃ m t,
        SysEvent.rollbackFinish
            (Except.ok "Infrastructure rolled back successfully") 140000 =
          SysEvent.rollbackFinish (Except.ok m) t) ∧
      0 < sysAfterFail.runningJobs ∧
      sysAfterFail.dep.status ≠ Status.pending ∧
      sysAfterFail.dep.deployedAt.isSome) ∧
    sysAfterSucc.dep.deployedAt.isSome ∧
    exRollingBackStarted.status = Status.rolling_back ∧
    exDeployed.status = Status.deployed :=
  ⟨rolled_back_entry_characterized.1 sysAfterFail sysRolledAfterFail
      (SysEvent.rollbackFinish
        (Except.ok "Infrastructure rolled back successfully") 140000)
      (sysRun_reachable c4FailTrace sysInit sysAfterFail SysReachable.init rfl)
      rfl rfl (by decide),
   rolled_back_entry_characterized.2.1 sysAfterSucc
      (sysRun_reachable c7SuccTrace sysInit sysAfterSucc SysReachable.init rfl)
      (Or.inr rfl),
   rolled_back_entry_characterized.2.2.1 exRollingBackStarted exRolledBack
      (Event.rollbackFinish (Except.ok "Infrastructure rolled back successfully") 120000)
      reach_exRollingBackStarted rfl rfl,
   rolled_back_entry_characterized.2.2.2 exDeployed exRollingBack
      Event.rollbackSubmit reach_exDeployed rfl rfl (by decide)⟩

/-- Claim C5, counterexample: with every terraform command succeeding but
the output-query stdout unparsable, `deployInfrastructure` throws
`Deployment failed: ...` and the deployment record transitions to
`failed`, not to `deployed` — refuting that a parse failure is a mere
warning. -/
theorem output_parse_failure_marks_failed :
    deployInfrastructure "proj-5" parseFailEnv =
      Except.error ("Deployment failed: " ++ jsonParseErrorMessage "mangled-output") ∧
    (step exDeploying
        (Event.deployFinish (deployInfrastructure "proj-5" parseFailEnv) 1000 61000
          (CostResult.errorResult "Project not found"))).map Deployment.status =
      some Status.failed ∧
    (step exDeploying
        (Event.deployFinish (deployInfrastructure "proj-5" parseFailEnv) 1000 61000
          (CostResult.errorResult "Project not found"))).map Deployment.status ≠
      some Status.deployed :=
  ⟨rfl, rfl, by decide⟩

/-- Claim C5, amended: when the apply subprocess succeeds but the
structured-output query stdout cannot be parsed, the whole call is
treated as a failure: `deployInfrastructure` throws `Deployment failed:`
with the parse diagnostic, and the deployment transitions to `failed`
with its outputs left untouched — it never reaches `deployed`. -/
theorem output_parse_failure_fails_deployment
    (p a b c out : String) (env : DeployEnv)
    (h1 : env.initRun = Except.ok a) (h2 : env.planRun = Except.ok b)
    (h3 : env.applyRun = Except.ok c) (h4 : env.outputRun = Except.ok out)
    (h5 : env.parse out = none) :
    deployInfrastructure p env =
      Except.error ("Deployment failed: " ++ jsonParseErrorMessage out) ∧
    ∀ (d d' : Deployment) (startMs finishMs : Nat) (cost : CostResult),
      step d (Event.deployFinish (deployInfrastructure p env) startMs finishMs cost) =
        some d' →
      d'.status = Status.failed ∧ d'.status ≠ Status.deployed ∧
      d'.outputs = d.outputs := by
  have he : deployInfrastructure p env =
      Except.error ("Deployment failed: " ++ jsonParseErrorMessage out) := by
    simp [deployInfrastructure, execOutcome, deployExecOptions, h1, h2, h3, h4, h5]
  refine ⟨he, ?_⟩
  intro d d' startMs finishMs cost h
  rw [he] at h
  simp only [step] at h
  split at h
  · injection h with h
    subst h
    exact ⟨rfl, by simp, rfl⟩
  · simp at h

/-- Claim C5, witness: the amended statement evaluated on a concrete
environment with an unparsable output. -/
theorem output_parse_failure_fails_deployment_witness :
    deployInfrastructure "proj-5w" parseFailEnv =
      Except.error ("Deployment failed: " ++ jsonParseErrorMessage "mangled-output") :=
  (output_parse_failure_fails_deployment "proj-5w" "" "plan-out" "apply-out"
    "mangled-output" parseFailEnv rfl rfl rfl rfl rfl).1

/-- Claim C6, counterexample: the delete route removes a deployment
record whose job is active (status `deploying`) — its filter checks only
id and user, no status — refuting that delete is rejected while a job is
active. -/
theorem delete_succeeds_while_deploying :
    Reachable exDeploying ∧ exDeploying.status = Status.deploying ∧
    deleteRoute (some exDeploying) = (DeleteOutcome.deleted, none) :=
  ⟨reach_exDeploying, rfl, rfl⟩

/-- Claim C6, amended: the delete operation removes any existing
deployment record of the requesting user unconditionally — no active-job
(status) check is performed, so deletion also succeeds while a job is
active. -/
theorem delete_ignores_active_job :
    ∀ d : Deployment, deleteRoute (some d) = (DeleteOutcome.deleted, none) :=
  fun _ => rfl

/-- Claim C7, counterexample: with two concurrently accepted rollback
jobs, the first destroy succeeds (`rolled_back`, `rolledBackAt` set) and
the second job's destroy then fails: the record ends `failed` with
`rolledBackAt` still set to the earlier success — refuting that after a
failed destroy `rolledBackAt` remains unset. -/
theorem rollback_failure_with_rolledBackAt_set :
    sysRun sysInit c7SuccTrace = some sysAfterSucc ∧
    sysAfterSucc.dep.rolledBackAt = some 120000 ∧
    sysStep sysAfterSucc
        (SysEvent.rollbackFinish (Except.error "Rollback failed: boom") 130000) =
      some sysFailedAfterSucc ∧
    sysFailedAfterSucc.dep.status = Status.failed ∧
    sysFailedAfterSucc.dep.rolledBackAt = some 120000 :=
  ⟨rfl, rfl, rfl, rfl, rfl⟩

/-- Claim C7, amended: the destroy-failure transition of a rollback job
always sets status `failed` — never `deployed` or `rolled_back` — and
appends the `error` entry with the failure reason, leaving `rolledBackAt`
exactly as it was; when jobs are serialized (at most one rollback job,
the unraced case) the record entering the transition has `rolledBackAt`
unset, so it stays unset — but after a concurrently accepted rollback
already succeeded, it remains set while the record ends `failed`. -/
theorem rollback_destroy_failure_outcome :
    (∀ (s s' : Sys) (msg : String) (t : Nat),
        sysStep s (SysEvent.rollbackFinish (Except.error msg) t) = some s' →
        s'.dep.status = Status.failed ∧
        s'.dep.status ≠ Status.deployed ∧ s'.dep.status ≠ Status.rolled_back ∧
        s'.dep.logs = s.dep.logs ++
          [⟨"Rollback failed: " ++ msg, LogType.error⟩] ∧
        s'.dep.rolledBackAt = s.dep.rolledBackAt) ∧
    (∀ (d d' : Deployment) (msg : String) (t : Nat), Reachable d →
        step d (Event.rollbackFinish (Except.error msg) t) = some d' →
        d'.status = Status.failed ∧
        d'.logs = d.logs ++ [⟨"Rollback failed: " ++ msg, LogType.error⟩] ∧
        d'.rolledBackAt = none) := by
  constructor
  · intro s s' msg t h
    simp only [sysStep] at h
    split at h
    · injection h with h
      subst h
      exact ⟨rfl, by simp, by simp, rfl, rfl⟩
    · simp at h
  · intro d d' msg t hr h
    obtain ⟨h1, h2, h3, h4, h5, h6, h7⟩ := reachable_inv hr
    simp only [step] at h
    split at h
    case isTrue hq =>
      have hrb : d.rolledBackAt = none := h7 (by simp [h4 hq])
      injection h with h
      subst h
      exact ⟨rfl, rfl, hrb⟩
    case isFalse => simp at h

/-- Claim C7, witness: the amended theorem applied to the concrete
raced run (the second job fails after the first succeeded, preserving
`rolledBackAt`) and to the concrete serialized run (where `rolledBackAt`
is unset). -/
theorem rollback_destroy_failure_outcome_witness :
    (sysFailedAfterSucc.dep.status = Status.failed ∧
     sysFailedAfterSucc.dep.status ≠ Status.deployed ∧
     sysFailedAfterSucc.dep.status ≠ Status.rolled_back ∧
     sysFailedAfterSucc.dep.logs = sysAfterSucc.dep.logs ++
       [⟨"Rollback failed: " ++ "Rollback failed: boom", LogType.error⟩] ∧
     sysFailedAfterSucc.dep.rolledBackAt = sysAfterSucc.dep.rolledBackAt) ∧
    (exRollbackFailed.status = Status.failed ∧
     exRollbackFailed.logs = exRollingBackStarted.logs ++
       [⟨"Rollback failed: " ++ "Rollback failed: Project path does not exist",
         LogType.error⟩] ∧
     exRollbackFailed.rolledBackAt = none) :=
  ⟨rollback_destroy_failure_outcome.1 sysAfterSucc sysFailedAfterSucc
      "Rollback failed: boom" 130000 rfl,
   rollback_destroy_failure_outcome.2 exRollingBackStarted exRollbackFailed
      "Rollback failed: Project path does not exist" 130000
      reach_exRollingBackStarted rfl⟩

/-- Claim C8, counterexample: when `terraform validate` rejects the
configuration, `validateInfrastructure` returns invalid and the cleanup
of the ephemeral validation workspace is never invoked — refuting that
the workspace is always released regardless of outcome. -/
theorem validation_failure_skips_cleanup :
    (validateInfrastructure invalidTfEnv).1.valid = false ∧
    (validateInfrastructure invalidTfEnv).2 = false :=
  ⟨rfl, rfl⟩

/-- Claim C8, amended: the ephemeral validation workspace is released
exactly when validation succeeds: the cleanup call sits at the end of the
`try` block, so any failing step skips it and leaves the workspace in
place. -/
theorem validation_cleanup_iff_valid :
    ∀ env : ValidateEnv,
      (validateInfrastructure env).2 = (validateInfrastructure env).1.valid := by
  intro env
  cases hs : env.setupRun <;>
    cases hi : env.initRun <;>
      cases hv : env.validateRun <;>
        simp [validateInfrastructure, execOutcome, validateExecOptions, hs, hi, hv]

/-- Claim C9, counterexample: no timeout is configured on the terraform
exec calls (only `cwd` is passed), and a run whose apply subprocess lasts
1000000000 ms still completes and transitions the deployment to
`deployed` — refuting that an overlong apply is force-terminated into
`failed` with a timeout log entry. -/
theorem no_timeout_long_apply_still_deploys :
    (deployExecOptions "proj-9").timeout = none ∧
    deployInfrastructure "proj-9" slowApplyEnv =
      Except.ok ⟨okSampleResult.outputs, "plan-out", "apply-out"⟩ ∧
    (step exDeploying
        (Event.deployFinish (deployInfrastructure "proj-9" slowApplyEnv) 0 1000000000
          (CostResult.estimate mockCostBreakdown))).map Deployment.status =
      some Status.deployed :=
  ⟨rfl, rfl, rfl⟩

/-- Claim C9, amended: the exec calls of the provisioning driver carry no
timeout option, and the outcome of `deployInfrastructure` is independent
of the subprocess durations — an apply is never force-terminated for
running too long, so no timeout-specific failure can occur. -/
theorem subprocess_duration_irrelevant :
    ∀ (p : String) (env : DeployEnv) (a b c d2 : Nat),
      (deployExecOptions p).timeout = none ∧
      deployInfrastructure p
          { env with initMs := a, planMs := b, applyMs := c, outputMs := d2 } =
        deployInfrastructure p env := by
  intro p env a b c d2
  exact ⟨rfl, rfl⟩

/-- Claim C10: for a workspace path that exists the cost estimate is the
fixed 150-dollar four-item USD breakdown, whatever was deployed; for a
missing path it is the `Project not found` error object, returned rather
than thrown. -/
theorem cost_estimate_constant (env : CostEnv) :
    (env.pathExists = true →
        getCostEstimate env = CostResult.estimate
          ⟨"$150.00",
           [⟨"EC2 Instances", "$80.00"⟩, ⟨"RDS Database", "$40.00"⟩,
            ⟨"S3 Storage", "$20.00"⟩, ⟨"Load Balancer", "$10.00"⟩],
           "USD"⟩) ∧
    (env.pathExists = false →
        getCostEstimate env = CostResult.errorResult "Project not found") := by
  constructor <;> intro h <;> simp [getCostEstimate, mockCostBreakdown, h]

/-- Claim C10, witness: the fixed breakdown on an existing workspace with
some deployed resources, and the error object on a missing one. -/
theorem cost_estimate_constant_witness :
    getCostEstimate ⟨true, ["aws_instance.web", "aws_db_instance.main"]⟩ =
      CostResult.estimate
        ⟨"$150.00",
         [⟨"EC2 Instances", "$80.00"⟩, ⟨"RDS Database", "$40.00"⟩,
          ⟨"S3 Storage", "$20.00"⟩, ⟨"Load Balancer", "$10.00"⟩],
         "USD"⟩ ∧
    getCostEstimate ⟨false, []⟩ = CostResult.errorResult "Project not found" :=
  ⟨(cost_estimate_constant ⟨true, ["aws_instance.web", "aws_db_instance.main"]⟩).1 rfl,
   (cost_estimate_constant ⟨false, []⟩).2 rfl⟩

end CloudPlayground
